import Mathlib

/-!
Verification development for the MCP protocol core of the goose repository:
a shallow embedding of the client-side request/response correlation engine
(crates/mcp-client/src/session.rs and transport.rs), the server-side method
router (crates/mcp-server/src/router.rs), the typed client facade
(crates/mcp-client/src/client.rs) and the SSE endpoint-event validation
(crates/mcpclient/src/sse_transport.rs), together with theorems about the
behaviour these components exhibit.
-/

/-- JSON values (serde_json::Value). Numbers are modelled as integers: no
claim in this development inspects numeric payloads. -/
inductive Json where
  | null : Json
  | bool (b : Bool) : Json
  | num (n : Int) : Json
  | str (s : String) : Json
  | arr (elems : List Json) : Json
  | obj (fields : List (String × Json)) : Json

/-- First-match lookup in a JSON object's field list (serde_json maps hold at
most one entry per key, so first-match agrees with map lookup). -/
def lookupField : List (String × Json) → String → Option Json
  | [], _ => none
  | (k, v) :: rest, key => if k = key then some v else lookupField rest key

/-- Value::get on an object; none on every other shape. -/
def Json.get : Json → String → Option Json
  | .obj fields, key => lookupField fields key
  | _, _ => none

/-- Value::as_str. -/
def Json.asStr : Json → Option String
  | .str s => some s
  | _ => none

mutual
/-- Display of a serde_json::Value (Value::to_string); string escaping is
elided because no claim depends on the rendered text. -/
def Json.render : Json → String
  | .null => "null"
  | .bool b => cond b "true" "false"
  | .num n => toString n
  | .str s => "\x22" ++ s ++ "\x22"
  | .arr xs => "[" ++ Json.renderSeq xs ++ "]"
  | .obj fs => "\x7b" ++ Json.renderFields fs ++ "\x7d"

/-- Comma-separated rendering of array elements. -/
def Json.renderSeq : List Json → String
  | [] => ""
  | [j] => Json.render j
  | j :: rest => Json.render j ++ "," ++ Json.renderSeq rest

/-- Comma-separated rendering of object fields. -/
def Json.renderFields : List (String × Json) → String
  | [] => ""
  | [(k, v)] => "\x22" ++ k ++ "\x22:" ++ Json.render v
  | (k, v) :: rest => "\x22" ++ k ++ "\x22:" ++ Json.render v ++ "," ++ Json.renderFields rest
end

/-- JSON-RPC error payload (mcp_core ErrorData). -/
structure ErrorData where
  code : Int
  message : String
  data : Option Json

/-- JSON-RPC request frame. Ids are u64 in the source; they are produced by a
counter starting at 1 and incremented once per call, so wraparound at 2^64 is
unreachable in any session and ids are modelled as Nat. -/
structure JsonRpcRequest where
  jsonrpc : String
  id : Option Nat
  method : String
  params : Option Json

/-- JSON-RPC response frame: result and error are both optional. -/
structure JsonRpcResponse where
  jsonrpc : String
  id : Option Nat
  result : Option Json
  error : Option ErrorData

/-- JSON-RPC notification frame: no id, never answered. -/
structure JsonRpcNotification where
  jsonrpc : String
  method : String
  params : Option Json

/-- Standalone JSON-RPC error frame (mcp_core JsonRpcError). -/
structure JsonRpcErrorMsg where
  jsonrpc : String
  id : Option Nat
  error : ErrorData

/-- The JsonRpcMessage union (mcp_core), as matched on by the session loop
and the client facade. -/
inductive JsonRpcMessage where
  | request (r : JsonRpcRequest)
  | response (r : JsonRpcResponse)
  | notification (n : JsonRpcNotification)
  | errorMsg (e : JsonRpcErrorMsg)
  | nil

/-- mcp-client transport read errors (transport.rs ReadError). -/
inductive ReadError where
  | invalidMessage (m : String)
  | transportClosed
  | childTerminated (m : String)
  | unknown (m : String)

/-- mcp-client transport write errors (transport.rs WriteError). -/
inductive WriteError where
  | serializationError (m : String)
  | transportClosed
  | unknown (m : String)

/-- Display strings of ReadError, from the thiserror attributes in
transport.rs; handle_read_error forwards error.to_string() to the waiters. -/
def readErrorString : ReadError → String
  | .invalidMessage m => "Invalid JSON message: " ++ m
  | .transportClosed => "Transport connection was closed"
  | .childTerminated m => "Child process terminated: " ++ m
  | .unknown m => "Unknown read error: " ++ m

/-- The read errors handle_read_error treats as fatal (session.rs lines
63-69): TransportClosed and ChildTerminated terminate the session, the
other kinds are logged and skipped. -/
def readErrorFatal : ReadError → Bool
  | .transportClosed => true
  | .childTerminated _ => true
  | .invalidMessage _ => false
  | .unknown _ => false

/-- One terminal event observed by a caller's one-shot response channel.
okRes models tx.send(Ok(Some(response))), okNone models tx.send(Ok(None))
(the notification acknowledgement), errRes models tx.send(Err(..)), and
dropped records that the sender was destroyed without any send, which the
caller's recv observes as a closed channel and surfaces as the
"Failed to receive response" error. -/
inductive Resolution where
  | okRes (r : JsonRpcResponse)
  | okNone
  | errRes (msg : String)
  | dropped

/-- State owned by the session's background loop: the shared is_closed flag,
the pending_requests vector of (request id, waiter) pairs, and whether the
loop has executed a break. Waiters stand for the one-shot response senders
and are named by Nat tokens. -/
structure LoopState where
  closed : Bool
  pending : List (Nat × Nat)
  stopped : Bool
deriving DecidableEq

/-- The loop state of a freshly constructed Session. -/
def initLoopState : LoopState := { closed := false, pending := [], stopped := false }

/-- notify_pending_requests (session.rs lines 26-34): drain the pending
vector, sending the same error message to every waiter. -/
def notify_pending_requests (pending : List (Nat × Nat)) (msg : String) :
    List (Nat × Resolution) :=
  pending.map (fun p => (p.2, Resolution.errRes msg))

/-- handle_write_error (session.rs lines 37-55): a closed write channel is
fatal (set is_closed, fail all pending); serialization and unknown write
errors are only logged. Returns (is_closed, pending, emitted sends). -/
def handle_write_error (e : WriteError) (closed : Bool) (pending : List (Nat × Nat)) :
    Bool × List (Nat × Nat) × List (Nat × Resolution) :=
  match e with
  | .transportClosed => (true, [], notify_pending_requests pending "Transport closed")
  | .serializationError _ => (closed, pending, [])
  | .unknown _ => (closed, pending, [])

/-- handle_read_error (session.rs lines 58-79): TransportClosed and
ChildTerminated set is_closed, fail all pending with the error's display
string and report fatal (last component); InvalidMessage and Unknown are
logged and non-fatal. -/
def handle_read_error (e : ReadError) (closed : Bool) (pending : List (Nat × Nat)) :
    Bool × List (Nat × Nat) × List (Nat × Resolution) × Bool :=
  match e with
  | .transportClosed =>
      (true, [], notify_pending_requests pending (readErrorString .transportClosed), true)
  | .childTerminated m =>
      (true, [], notify_pending_requests pending (readErrorString (.childTerminated m)), true)
  | .invalidMessage _ => (closed, pending, [], false)
  | .unknown _ => (closed, pending, [], false)

/-- Remove the first pending entry whose request id equals the target
(position + remove in handle_response_message), returning its waiter and
the remaining vector. -/
def resolveById : List (Nat × Nat) → Nat → Option (Nat × List (Nat × Nat))
  | [], _ => none
  | (i, w) :: rest, target =>
    if i = target then some (w, rest)
    else
      match resolveById rest target with
      | some (w', rest') => some (w', (i, w) :: rest')
      | none => none

/-- handle_response_message (session.rs lines 82-92): when the response
carries an id held in pending_requests, remove that entry and deliver
Ok(Some(response)) to its waiter; otherwise do nothing. -/
def handle_response_message (r : JsonRpcResponse) (pending : List (Nat × Nat)) :
    List (Nat × Nat) × List (Nat × Resolution) :=
  match r.id with
  | none => (pending, [])
  | some i =>
    match resolveById pending i with
    | none => (pending, [])
    | some (w, rest) => (rest, [(w, Resolution.okRes r)])

/-- One iteration's stimulus for the background loop's three-way select
(session.rs lines 112-175): the shutdown signal, an outgoing message
carrying its caller's one-shot sender (with the result of the
write_stream.send that forwarding it would have), or the next item of the
read stream. -/
inductive LoopEvent where
  | shutdownSignal
  | outgoing (msg : JsonRpcMessage) (waiter : Nat) (sendOk : Bool)
  | incoming (r : Except ReadError JsonRpcMessage)

/-- One iteration of the background loop (session.rs lines 111-176),
returning the successor state and the sends performed on waiters' one-shot
channels. Session::shutdown stores is_closed before signalling, so the
shutdown arm itself only drains the waiters and breaks. On a failed
write_stream.send the current caller's sender is dropped unresolved (the
OutgoingMessage is destroyed by the break), recorded as Resolution.dropped. -/
def step (s : LoopState) (e : LoopEvent) : LoopState × List (Nat × Resolution) :=
  match e with
  | .shutdownSignal =>
      ({ s with pending := [], stopped := true },
        notify_pending_requests s.pending "Session shutdown")
  | .outgoing msg w sendOk =>
      if s.closed then
        (s, [(w, Resolution.errRes "Session is closed")])
      else if sendOk = false then
        let hw := handle_write_error .transportClosed s.closed s.pending
        ({ closed := hw.1, pending := hw.2.1, stopped := true },
          hw.2.2 ++ [(w, Resolution.dropped)])
      else
        match msg with
        | .request req =>
          match req.id with
          | some i => ({ s with pending := s.pending ++ [(i, w)] }, [])
          | none => (s, [(w, Resolution.dropped)])
        | _ => (s, [(w, Resolution.okNone)])
  | .incoming (.ok (.response r)) =>
      let hr := handle_response_message r s.pending
      ({ s with pending := hr.1 }, hr.2)
  | .incoming (.ok _) => (s, [])
  | .incoming (.error re) =>
      let hr := handle_read_error re s.closed s.pending
      ({ closed := hr.1, pending := hr.2.1, stopped := hr.2.2.2 }, hr.2.2.1)

/-- Run the background loop over a queue of stimuli; processing stops at the
first break (stopped state), and the unconsumed suffix is returned so that
statements can speak about exactly the events the loop actually handled. -/
def runLoop : LoopState → List LoopEvent → LoopState × List (Nat × Resolution) × List LoopEvent
  | s, [] => (s, [], [])
  | s, e :: es =>
    if s.stopped then (s, [], e :: es)
    else
      let p := step s e
      let q := runLoop p.1 es
      (q.1, p.2 ++ q.2.1, q.2.2)

/-- The waiter named by an event: an outgoing message carries its caller's
fresh one-shot sender, the other stimuli carry none. -/
def eventWaiters : LoopEvent → List Nat
  | .outgoing _ w _ => [w]
  | _ => []

/-- All waiters submitted along a trace. -/
def traceWaiters (tr : List LoopEvent) : List Nat :=
  tr.foldr (fun e acc => eventWaiters e ++ acc) []

/-- The waiters of the currently pending requests. -/
def pendingWaiters (s : LoopState) : List Nat := s.pending.map Prod.snd

/-- Synchronous entry of Session::rpc_call (session.rs lines 231-247): the
is_closed check precedes the id allocation and any submission to the
background loop, so a closed session is rejected without any transport I/O;
otherwise the next id is taken from the counter and the request is built. -/
def rpc_call_entry (isClosed : Bool) (counter : Nat) (method : String)
    (params : Option Json) : Except String (JsonRpcRequest × Nat) :=
  if isClosed then .error "Session is closed"
  else .ok ({ jsonrpc := "2.0", id := some counter, method := method, params := params },
            counter + 1)

/-- Synchronous entry of Session::send_notification (session.rs lines
263-273): same closed check before any I/O. -/
def send_notification_entry (isClosed : Bool) (method : String)
    (params : Option Json) : Except String JsonRpcNotification :=
  if isClosed then .error "Session is closed"
  else .ok { jsonrpc := "2.0", method := method, params := params }

/-- The session handle state visible to Session::shutdown: the shared
is_closed flag and whether the background loop (hence the shutdown
channel's receiver) is still alive. -/
structure SessionHandle where
  isClosed : Bool
  loopAlive : Bool
deriving DecidableEq

/-- Handle state of a freshly constructed Session. -/
def initHandle : SessionHandle := { isClosed := false, loopAlive := true }

/-- Session::shutdown (session.rs lines 190-207) composed with the loop's
shutdown arm: store is_closed, send on shutdown_tx, await the loop. While
the loop is alive the signal reaches it, the pending waiters are drained
with "Session shutdown" and the loop breaks; once the loop has exited its
receiver is gone, so shutdown_tx.send fails and shutdown returns the
"Failed to shutdown session" error (the trailing send-error text is
elided). -/
def SessionHandle.shutdown (h : SessionHandle) (pending : List (Nat × Nat)) :
    SessionHandle × Except String Unit × List (Nat × Resolution) :=
  if h.loopAlive then
    ({ isClosed := true, loopAlive := false }, .ok (),
      notify_pending_requests pending "Session shutdown")
  else
    ({ h with isClosed := true }, .error "Failed to shutdown session", [])

/-- Capability descriptor for tools (mcp_core ToolsCapability; the protocol
data types live in the mcp-core crate, which only appears through its users
in this tree — field shapes follow the spec's Capabilities description). -/
structure ToolsCapability where
  listChanged : Option Bool
deriving DecidableEq

/-- Capability descriptor for prompts. -/
structure PromptsCapability where
  listChanged : Option Bool
deriving DecidableEq

/-- Capability descriptor for resources. -/
structure ResourcesCapability where
  subscribe : Option Bool
  listChanged : Option Bool
deriving DecidableEq

/-- The advertised capability set (mcp_core ServerCapabilities). -/
structure ServerCapabilities where
  tools : Option ToolsCapability
  prompts : Option PromptsCapability
  resources : Option ResourcesCapability
deriving DecidableEq

/-- A registered tool handler (mcp_core handler::ToolHandler): name,
description, schema and the call operation. A handler failure is its
error's display string, as consumed by err.to_string() in the router. -/
structure ToolHandler where
  name : String
  description : String
  schema : Json
  call : Json → Except String Json

/-- Tool metadata as returned by tools/list (mcp_core tool::Tool). -/
structure Tool where
  name : String
  description : String
  input_schema : Json

/-- Tool serialization, following the spec's tools/list result shape. -/
def Tool.toJson (t : Tool) : Json :=
  Json.obj [("name", Json.str t.name), ("description", Json.str t.description),
            ("inputSchema", t.input_schema)]

/-- Content returned by tool calls (mcp_core content::Content; shape from
the spec's Content union). -/
inductive Content where
  | text (t : String)
  | image (data : String) (mimeType : String)
  | embedded (resource : Json)

/-- Content serialization (type-tagged union per the spec's wire format). -/
def Content.toJson : Content → Json
  | .text t => Json.obj [("type", Json.str "text"), ("text", Json.str t)]
  | .image d m => Json.obj [("type", Json.str "image"), ("data", Json.str d),
                            ("mimeType", Json.str m)]
  | .embedded r => Json.obj [("type", Json.str "resource"), ("resource", r)]

/-- tools/call result payload (mcp_core CallToolResult). -/
structure CallToolResult where
  content : List Content
  is_error : Bool

/-- CallToolResult serialization: the spec's tools/call result shape
with the content list and the isError flag. -/
def CallToolResult.toJson (c : CallToolResult) : Json :=
  Json.obj [("content", Json.arr (c.content.map Content.toJson)),
            ("isError", Json.bool c.is_error)]

/-- Router-level errors (mcp-server router.rs usage: the tools/call arm
produces ToolNotFound for a name absent from the registry). -/
inductive RouterError where
  | methodNotFound (m : String)
  | toolNotFound (m : String)
  | invalidParams (m : String)
  | internal (m : String)

/-- The tool registry: HashMap from tool name to handler, modelled as an
association list; insertion replaces an existing entry with the same key.
Iteration order of the HashMap is unspecified, so every statement about
tools/list output is at the level of membership, never of position. -/
def insertTool (m : List (String × ToolHandler)) (k : String) (v : ToolHandler) :
    List (String × ToolHandler) :=
  match m with
  | [] => [(k, v)]
  | (k', v') :: rest => if k' = k then (k, v) :: rest else (k', v') :: insertTool rest k v

/-- Lookup in the tool registry (HashMap::get). -/
def lookupTool : List (String × ToolHandler) → String → Option ToolHandler
  | [], _ => none
  | (k, h) :: rest, name => if k = name then some h else lookupTool rest name

/-- RouterBuilder (router.rs lines 25-93): the tool registry plus the
optional hand-set prompts and resources capability descriptors. -/
structure RouterBuilder where
  tools : List (String × ToolHandler)
  prompts : Option PromptsCapability
  resources : Option ResourcesCapability

/-- RouterBuilder::new. -/
def RouterBuilder.new : RouterBuilder :=
  { tools := [], prompts := none, resources := none }

/-- RouterBuilder::with_tool: insert keyed by the tool's own name. -/
def RouterBuilder.with_tool (b : RouterBuilder) (t : ToolHandler) : RouterBuilder :=
  { b with tools := insertTool b.tools t.name t }

/-- RouterBuilder::with_prompts: hand-sets the prompts capability. -/
def RouterBuilder.with_prompts (b : RouterBuilder) (listChanged : Bool) : RouterBuilder :=
  { b with prompts := some { listChanged := some listChanged } }

/-- RouterBuilder::with_resources: hand-sets the resources capability. -/
def RouterBuilder.with_resources (b : RouterBuilder) (subscribe listChanged : Bool) :
    RouterBuilder :=
  { b with resources := some { subscribe := some subscribe,
                               listChanged := some listChanged } }

/-- The Router (router.rs lines 98-101): advertised capabilities and the
tool registry. -/
structure Router where
  capabilities : ServerCapabilities
  tools : List (String × ToolHandler)

/-- RouterBuilder::build (router.rs lines 76-92): the tools capability is
present exactly when the registry is non-empty (with list_changed false);
prompts and resources are whatever was explicitly set on the builder. -/
def RouterBuilder.build (b : RouterBuilder) : Router :=
  { capabilities :=
      { tools := if b.tools.isEmpty then none
                 else some { listChanged := some false },
        prompts := b.prompts,
        resources := b.resources },
    tools := b.tools }

/-- create_response (router.rs lines 109-116). -/
def createResponse (id : Option Nat) : JsonRpcResponse :=
  { jsonrpc := "2.0", id := id, result := none, error := none }

/-- handle_initialize's result payload (router.rs lines 118-133); the crate
version string is a modelled constant. -/
structure ServerInitResult where
  protocol_version : String
  capabilities : ServerCapabilities
  server_name : String
  server_version : String

/-- The initialize handler's result: this peer's identity and the stored
capabilities, unchanged. -/
def Router.handle_init_result (r : Router) : ServerInitResult :=
  { protocol_version := "2024-11-05", capabilities := r.capabilities,
    server_name := "mcp-server", server_version := "0.1.0" }

/-- The Tool view of a registered handler. -/
def mkTool (h : ToolHandler) : Tool :=
  { name := h.name, description := h.description, input_schema := h.schema }

/-- The tool enumeration of handle_tools_list (router.rs lines 135-150):
the registry's values, mapped to their metadata. -/
def Router.toolsList (r : Router) : List Tool :=
  r.tools.map (fun p => mkTool p.2)

/-- handle_tools_list (router.rs lines 135-150): a successful response whose
result is the serialized tools list. -/
def Router.handle_tools_list (r : Router) (req : JsonRpcRequest) :
    Except RouterError JsonRpcResponse :=
  .ok { createResponse req.id with
        result := some (Json.obj [("tools", Json.arr ((Router.toolsList r).map Tool.toJson))]) }

/-- handle_tools_call (router.rs lines 152-182): extract the tool name and
arguments from params, look the name up in the registry, invoke the
handler, and wrap success or handler failure into a CallToolResult carried
by a successful response (handler failure sets is_error and carries the
error text as content); a missing registry entry is the ToolNotFound
router error and no handler runs. serde_json::to_value of the result
cannot fail in this model, so the Internal error arm is not reachable. -/
def Router.handle_tools_call (r : Router) (req : JsonRpcRequest) :
    Except RouterError JsonRpcResponse :=
  match req.params with
  | none => .error (.invalidParams "Missing parameters")
  | some params =>
    match (params.get "name").bind Json.asStr with
    | none => .error (.invalidParams "Missing tool name")
    | some name =>
      let arguments := (params.get "arguments").getD Json.null
      match lookupTool r.tools name with
      | none => .error (.toolNotFound name)
      | some tool =>
        let result :=
          match tool.call arguments with
          | .ok v => CallToolResult.mk [Content.text (Json.render v)] false
          | .error err => CallToolResult.mk [Content.text err] true
        .ok { createResponse req.id with result := some (CallToolResult.toJson result) }

/-- A well-formed tools/call request for the given tool name and arguments,
with the parameter shape the client facade produces. -/
def toolsCallReq (id : Option Nat) (name : String) (args : Json) : JsonRpcRequest :=
  { jsonrpc := "2.0", id := id, method := "tools/call",
    params := some (Json.obj [("name", Json.str name), ("arguments", args)]) }

/-- Client-facade errors (mcp-client client.rs Error). -/
inductive ClientError where
  | service (m : String)
  | rpc (code : Int) (message : String)
  | serialization (m : String)
  | unexpectedResponse
  | notReady
deriving DecidableEq

/-- initialize's result payload on the client side (mcp_core
InitializeResult, shape from the spec's handshake description). -/
structure InitResult where
  protocol_version : String
  capabilities : ServerCapabilities
  server_name : String
  server_version : String
deriving DecidableEq

/-- The outcomes the underlying service would give the two wire operations
McpClientImpl::initialize performs: the reply to the initialize request and
the result of submitting the initialized notification. -/
structure InitOutcomes where
  requestOutcome : Except ClientError InitResult
  notifyOutcome : Except ClientError Unit

/-- Wire operations the client facade performs, in order. -/
inductive ClientAction where
  | sentRequest (method : String)
  | sentNotification (method : String)
deriving DecidableEq

/-- McpClientImpl::initialize (client.rs lines 174-192): send the initialize
request and propagate its failure; only on a successful response send the
notifications/initialized notification, and propagate a failure of that
send as the failure of the whole handshake. Returns the overall outcome
and the wire operations performed. Session::initialize (session.rs lines
281-301) has the same rpc_call-then-send_notification structure. -/
def clientInitHandshake (o : InitOutcomes) :
    Except ClientError InitResult × List ClientAction :=
  match o.requestOutcome with
  | .error e => (.error e, [.sentRequest "initialize"])
  | .ok r =>
    match o.notifyOutcome with
    | .error e =>
        (.error e, [.sentRequest "initialize", .sentNotification "notifications/initialized"])
    | .ok _ =>
        (.ok r, [.sentRequest "initialize", .sentNotification "notifications/initialized"])

/-- A parsed URL, as far as the SSE endpoint validation inspects one:
Url::scheme, Url::host (no port) and Url::port are separate accessors of
the url crate. -/
structure UrlModel where
  scheme : String
  host : Option String
  port : Option Nat
  urlPath : String
deriving DecidableEq

/-- The web origin of a URL: scheme, host and port. -/
def urlOrigin (u : UrlModel) : String × Option String × Option Nat :=
  (u.scheme, u.host, u.port)

/-- The validation the SSE transport applies to an announced endpoint URL
after resolving it against the stream's base URL (sse_transport.rs lines
78-90): accept and store the resolved URL when its scheme and host equal
the base URL's, otherwise fail with the invalid-endpoint-origin error. The
port is not consulted. -/
def endpoint_event_check (base resolved : UrlModel) : Except String UrlModel :=
  if resolved.scheme = base.scheme ∧ resolved.host = base.host then .ok resolved
  else .error "Invalid endpoint origin"

/-- First character of a string, used to separate error-message families. -/
def strHead (s : String) : Option Char := s.data.head?

/-- A concrete event trace for the correlation loop: two concurrent
requests, one response, then shutdown. -/
def c1Trace : List LoopEvent :=
  [ .outgoing (.request { jsonrpc := "2.0", id := some 1, method := "tools/list",
                          params := none }) 10 true,
    .outgoing (.request { jsonrpc := "2.0", id := some 2, method := "resources/list",
                          params := none }) 11 true,
    .incoming (.ok (.response { jsonrpc := "2.0", id := some 2,
                                result := some Json.null, error := none })),
    .shutdownSignal ]

/-- A loop state with two outstanding requests. -/
def c2State : LoopState :=
  { closed := false, pending := [(1, 21), (2, 22)], stopped := false }

/-- A loop state with one outstanding request. -/
def c3State : LoopState :=
  { closed := false, pending := [(1, 31)], stopped := false }

/-- A response whose id matches no outstanding request of c3State. -/
def c3Resp : JsonRpcResponse :=
  { jsonrpc := "2.0", id := some 99, result := some Json.null, error := none }

/-- A tool handler that succeeds, echoing its arguments. -/
def echoTool : ToolHandler :=
  { name := "echo", description := "Echo the arguments back",
    schema := Json.obj [], call := fun args => .ok args }

/-- A tool handler whose call always fails. -/
def failTool : ToolHandler :=
  { name := "fail", description := "Always fails",
    schema := Json.obj [], call := fun _ => .error "tool exploded" }

/-- A router with one registered tool. -/
def c4Router : Router := (RouterBuilder.new.with_tool echoTool).build

/-- A router whose single tool fails when called. -/
def c5Router : Router := (RouterBuilder.new.with_tool failTool).build

/-- A concrete successful handshake result. -/
def demoInitResult : InitResult :=
  { protocol_version := "2024-11-05",
    capabilities := { tools := none, prompts := none, resources := none },
    server_name := "mcp-server", server_version := "0.1.0" }

/-- Service outcomes where the initialize request succeeds but submitting
the initialized notification fails. -/
def c9Outcomes : InitOutcomes :=
  { requestOutcome := .ok demoInitResult,
    notifyOutcome := .error (.service "connection reset") }

/-- The base URL of a concrete SSE stream. -/
def sseBase : UrlModel :=
  { scheme := "http", host := some "localhost", port := some 8000, urlPath := "/sse" }

/-- An announced endpoint on the same scheme and host but another port:
a different web origin. -/
def sseRoguePort : UrlModel :=
  { scheme := "http", host := some "localhost", port := some 9999, urlPath := "/messages" }

/-- An announced endpoint on a foreign host. -/
def sseForeignHost : UrlModel :=
  { scheme := "http", host := some "evil.example", port := some 8000, urlPath := "/messages" }

/-- The waiters notified by notify_pending_requests are exactly the pending
waiters, in order. -/
theorem notify_map_fst (p : List (Nat × Nat)) (m : String) :
    (notify_pending_requests p m).map Prod.fst = p.map Prod.snd := by
  simp [notify_pending_requests]

/-- Removing the entry found by resolveById permutes the pending waiters
into the found waiter plus the remaining ones. -/
theorem resolveById_perm {l : List (Nat × Nat)} {t w : Nat} {rest : List (Nat × Nat)}
    (h : resolveById l t = some (w, rest)) :
    (l.map Prod.snd).Perm (w :: rest.map Prod.snd) := by
  induction l generalizing w rest with
  | nil => simp [resolveById] at h
  | cons a l ih =>
    obtain ⟨i, w0⟩ := a
    by_cases hi : i = t
    · simp [resolveById, hi] at h
      obtain ⟨hw, hrest⟩ := h
      subst hw; subst hrest
      simp
    · simp [resolveById, hi] at h
      cases hres : resolveById l t with
      | none => rw [hres] at h; simp at h
      | some wr =>
        obtain ⟨w', rest'⟩ := wr
        rw [hres] at h
        simp only [Option.some.injEq, Prod.mk.injEq] at h
        rw [← h.1, ← h.2]
        simp only [List.map_cons]
        exact ((ih hres).cons w0).trans (List.Perm.swap w' w0 _)

/-- resolveById finds nothing when no pending entry carries the id. -/
theorem resolveById_eq_none {l : List (Nat × Nat)} {t : Nat}
    (h : ∀ p ∈ l, p.1 ≠ t) : resolveById l t = none := by
  induction l with
  | nil => rfl
  | cons a l ih =>
    obtain ⟨i, w⟩ := a
    have hi : i ≠ t := h (i, w) (by simp)
    have hrec : resolveById l t = none := ih (fun p hp => h p (by simp [hp]))
    simp [resolveById, hi, hrec]

/-- handle_response_message conserves waiters: the resolved waiter plus the
remaining pending waiters count up to the original pending waiters. -/
theorem handle_response_count (r : JsonRpcResponse) (pending : List (Nat × Nat)) (x : Nat) :
    List.count x ((handle_response_message r pending).2.map Prod.fst)
      + List.count x ((handle_response_message r pending).1.map Prod.snd)
      = List.count x (pending.map Prod.snd) := by
  cases hid : r.id with
  | none => simp [handle_response_message, hid]
  | some i =>
    cases hres : resolveById pending i with
    | none => simp [handle_response_message, hid, hres]
    | some wr =>
      obtain ⟨w, rest⟩ := wr
      have hceq := (resolveById_perm hres).count_eq x
      rw [List.count_cons] at hceq
      simp only [handle_response_message, hid, hres, List.map_cons, List.map_nil,
        List.count_cons, List.count_nil]
      by_cases hxw : x = w
      · simp [hxw] at hceq ⊢; omega
      · simp [hxw, Ne.symm hxw] at hceq ⊢; omega

/-- Linearity of one loop iteration: the waiters it resolves (or drops)
plus the waiters still pending afterwards count up to the event's newly
submitted waiter plus the waiters pending before. No iteration duplicates
a waiter. -/
theorem step_count (s : LoopState) (e : LoopEvent) (x : Nat) :
    List.count x ((step s e).2.map Prod.fst)
      + List.count x (pendingWaiters (step s e).1)
      = List.count x (eventWaiters e) + List.count x (pendingWaiters s) := by
  cases e with
  | shutdownSignal =>
    simp [step, pendingWaiters, eventWaiters, notify_map_fst]
  | outgoing msg w sendOk =>
    by_cases hc : s.closed
    · simp [step, hc, pendingWaiters, eventWaiters]
    · by_cases hok : sendOk = false
      · simp [step, hc, hok, pendingWaiters, eventWaiters, handle_write_error,
          notify_map_fst, List.count_append]
        omega
      · cases msg with
        | request req =>
          cases hid : req.id with
          | some i =>
            simp [step, hc, hok, hid, pendingWaiters, eventWaiters, List.count_append]
            omega
          | none =>
            simp [step, hc, hok, hid, pendingWaiters, eventWaiters]
        | response r => simp [step, hc, hok, pendingWaiters, eventWaiters]
        | notification n => simp [step, hc, hok, pendingWaiters, eventWaiters]
        | errorMsg em => simp [step, hc, hok, pendingWaiters, eventWaiters]
        | nil => simp [step, hc, hok, pendingWaiters, eventWaiters]
  | incoming r =>
    cases r with
    | error re =>
      cases re <;>
        simp [step, handle_read_error, pendingWaiters, eventWaiters, notify_map_fst]
    | ok m =>
      cases m with
      | response resp =>
        have hh := handle_response_count resp s.pending x
        simp only [step, pendingWaiters, eventWaiters, List.count_nil]
        omega
      | request rq => simp [step, pendingWaiters, eventWaiters]
      | notification n => simp [step, pendingWaiters, eventWaiters]
      | errorMsg em => simp [step, pendingWaiters, eventWaiters]
      | nil => simp [step, pendingWaiters, eventWaiters]

/-- Every break path of the loop first drains the pending vector. -/
theorem step_stop (s : LoopState) (e : LoopEvent) (hs : s.stopped = false)
    (h : (step s e).1.stopped = true) : (step s e).1.pending = [] := by
  cases e with
  | shutdownSignal => simp [step]
  | outgoing msg w sendOk =>
    by_cases hc : s.closed
    · simp [step, hc] at h; rw [h] at hs; cases hs
    · by_cases hok : sendOk = false
      · simp [step, hc, hok, handle_write_error]
      · cases msg with
        | request req =>
          cases hid : req.id with
          | some i => simp [step, hc, hok, hid] at h; rw [h] at hs; cases hs
          | none => simp [step, hc, hok, hid] at h; rw [h] at hs; cases hs
        | response r => simp [step, hc, hok] at h; rw [h] at hs; cases hs
        | notification n => simp [step, hc, hok] at h; rw [h] at hs; cases hs
        | errorMsg em => simp [step, hc, hok] at h; rw [h] at hs; cases hs
        | nil => simp [step, hc, hok] at h; rw [h] at hs; cases hs
  | incoming r =>
    cases r with
    | error re =>
      cases re <;> simp [step, handle_read_error] at h ⊢
    | ok m =>
      cases m with
      | response resp => simp [step] at h; rw [h] at hs; cases hs
      | request rq => simp [step] at h; rw [h] at hs; cases hs
      | notification n => simp [step] at h; rw [h] at hs; cases hs
      | errorMsg em => simp [step] at h; rw [h] at hs; cases hs
      | nil => simp [step] at h; rw [h] at hs; cases hs

/-- Running the loop consumes a prefix of its event queue, and over that
prefix waiters are conserved: resolutions plus still-pending waiters count
up to the waiters the consumed events submitted plus those initially
pending. -/
theorem runLoop_count (s : LoopState) (tr : List LoopEvent) :
    ∃ consumed, tr = consumed ++ (runLoop s tr).2.2 ∧
      ∀ x, List.count x ((runLoop s tr).2.1.map Prod.fst)
            + List.count x (pendingWaiters (runLoop s tr).1)
          = List.count x (traceWaiters consumed) + List.count x (pendingWaiters s) := by
  induction tr generalizing s with
  | nil => exact ⟨[], rfl, fun x => by simp [runLoop, traceWaiters]⟩
  | cons e es ih =>
    by_cases hs : s.stopped
    · refine ⟨[], by simp [runLoop, hs], fun x => by simp [runLoop, hs, traceWaiters]⟩
    · have hs' : s.stopped = false := by simpa using hs
      obtain ⟨c, hc, hcount⟩ := ih (step s e).1
      have hrun : runLoop s (e :: es)
          = ((runLoop (step s e).1 es).1,
             (step s e).2 ++ (runLoop (step s e).1 es).2.1,
             (runLoop (step s e).1 es).2.2) := by
        simp [runLoop, hs']
      refine ⟨e :: c, ?_, ?_⟩
      · rw [hrun]
        simp only [List.cons_append]
        exact congrArg (List.cons e) hc
      · intro x
        have h1 := hcount x
        have h2 := step_count s e x
        have he : traceWaiters (e :: c) = eventWaiters e ++ traceWaiters c := rfl
        rw [hrun]
        simp only [List.map_append, List.count_append, he]
        omega

/-- A loop that has stopped holds no pending waiter. -/
theorem runLoop_stop (s : LoopState) (tr : List LoopEvent)
    (hinv : s.stopped = true → s.pending = []) :
    (runLoop s tr).1.stopped = true → (runLoop s tr).1.pending = [] := by
  induction tr generalizing s with
  | nil => exact hinv
  | cons e es ih =>
    by_cases hs : s.stopped
    · simpa [runLoop, hs] using hinv
    · have hs' : s.stopped = false := by simpa using hs
      have hrun : runLoop s (e :: es)
          = ((runLoop (step s e).1 es).1,
             (step s e).2 ++ (runLoop (step s e).1 es).2.1,
             (runLoop (step s e).1 es).2.2) := by
        simp [runLoop, hs']
      rw [hrun]
      exact ih (step s e).1 (step_stop s e hs')

/-- traceWaiters distributes over trace concatenation. -/
theorem traceWaiters_append (a b : List LoopEvent) :
    traceWaiters (a ++ b) = traceWaiters a ++ traceWaiters b := by
  induction a with
  | nil => rfl
  | cons e a ih =>
    simp only [List.cons_append]
    show eventWaiters e ++ traceWaiters (a ++ b) = (eventWaiters e ++ traceWaiters a) ++ traceWaiters b
    rw [ih, List.append_assoc]

/-- A name on which the registry lookup fails is no entry's key. -/
theorem lookupTool_keys_of_none {l : List (String × ToolHandler)} {name : String}
    (h : lookupTool l name = none) : ∀ p ∈ l, p.1 ≠ name := by
  induction l with
  | nil => simp
  | cons a rest ih =>
    obtain ⟨k, v⟩ := a
    by_cases hk : k = name
    · simp [lookupTool, hk] at h
    · intro p hp
      rcases List.mem_cons.mp hp with h1 | h1
      · rw [h1]; exact hk
      · have hr : lookupTool rest name = none := by simpa [lookupTool, hk] using h
        exact ih hr p h1

/-- C1: for every session and every set of concurrently issued requests,
each request receives exactly one terminal resolution and no waiter is
resolved twice. Formally, over any trace of loop stimuli in which every
outgoing message carries a fresh one-shot waiter (as rpc_call and
send_message guarantee by constructing a new channel per call): the loop
consumes a prefix of the trace; every waiter receives at most one send (or
drop) on its channel; every waiter submitted in the consumed prefix is
accounted exactly once, as one emitted resolution or as one still-pending
entry; and whenever the loop has terminated nothing is still pending, so at
termination each consumed request has received exactly one terminal
outcome. -/
theorem session_exactly_one_resolution (tr : List LoopEvent)
    (hnd : (traceWaiters tr).Nodup) :
    ∃ consumed, tr = consumed ++ (runLoop initLoopState tr).2.2 ∧
      (∀ x, List.count x ((runLoop initLoopState tr).2.1.map Prod.fst) ≤ 1) ∧
      (∀ x ∈ traceWaiters consumed,
        List.count x ((runLoop initLoopState tr).2.1.map Prod.fst)
          + List.count x (pendingWaiters (runLoop initLoopState tr).1) = 1) ∧
      ((runLoop initLoopState tr).1.stopped = true →
        (runLoop initLoopState tr).1.pending = []) := by
  obtain ⟨c, hc, hcount⟩ := runLoop_count initLoopState tr
  have hcnd : (traceWaiters c).Nodup := by
    rw [hc, traceWaiters_append] at hnd
    exact (List.nodup_append.mp hnd).1
  have hinit : pendingWaiters initLoopState = [] := rfl
  refine ⟨c, hc, ?_, ?_, ?_⟩
  · intro x
    have h1 := hcount x
    rw [hinit] at h1
    have h2 : List.count x (traceWaiters c) ≤ 1 :=
      List.nodup_iff_count_le_one.mp hcnd x
    simp at h1
    omega
  · intro x hx
    have h1 := hcount x
    rw [hinit] at h1
    have h2 : List.count x (traceWaiters c) = 1 :=
      List.count_eq_one_of_mem hcnd hx
    simp at h1
    omega
  · exact runLoop_stop initLoopState tr (fun h => by simp [initLoopState] at h)

/-- Witness for C1 at a concrete trace: two requests, one response for the
second, then shutdown. -/
theorem session_exactly_one_resolution_witness :
    (traceWaiters c1Trace).Nodup ∧
    (∃ consumed, c1Trace = consumed ++ (runLoop initLoopState c1Trace).2.2 ∧
      (∀ x, List.count x ((runLoop initLoopState c1Trace).2.1.map Prod.fst) ≤ 1) ∧
      (∀ x ∈ traceWaiters consumed,
        List.count x ((runLoop initLoopState c1Trace).2.1.map Prod.fst)
          + List.count x (pendingWaiters (runLoop initLoopState c1Trace).1) = 1) ∧
      ((runLoop initLoopState c1Trace).1.stopped = true →
        (runLoop initLoopState c1Trace).1.pending = [])) :=
  ⟨by decide, session_exactly_one_resolution c1Trace (by decide)⟩

/-- C2: a fatal transport read error (closed channel or terminated child)
with N requests outstanding closes the session, stops the loop, and fails
all N waiters with the error's own description — which distinguishes the
two causes — and afterwards rpc_call and send_notification reject
immediately on the closed flag with "Session is closed", before any id
allocation or submission towards the transport. -/
theorem session_fatal_read_fails_all (s : LoopState) (re : ReadError)
    (hf : readErrorFatal re = true) :
    (step s (.incoming (.error re))).1.closed = true ∧
    (step s (.incoming (.error re))).1.stopped = true ∧
    (step s (.incoming (.error re))).1.pending = [] ∧
    (step s (.incoming (.error re))).2
      = notify_pending_requests s.pending (readErrorString re) ∧
    ((step s (.incoming (.error re))).2).length = s.pending.length ∧
    readErrorString .transportClosed = "Transport connection was closed" ∧
    (∀ m, readErrorString (.childTerminated m) = "Child process terminated: " ++ m) ∧
    (∀ c method params, rpc_call_entry true c method params = .error "Session is closed") ∧
    (∀ method params, send_notification_entry true method params
      = .error "Session is closed") := by
  cases re with
  | transportClosed =>
    refine ⟨rfl, rfl, rfl, rfl, ?_, rfl, fun m => rfl, fun c method params => rfl,
      fun method params => rfl⟩
    simp [step, handle_read_error, notify_pending_requests]
  | childTerminated m =>
    refine ⟨rfl, rfl, rfl, rfl, ?_, rfl, fun m' => rfl, fun c method params => rfl,
      fun method params => rfl⟩
    simp [step, handle_read_error, notify_pending_requests]
  | invalidMessage m => simp [readErrorFatal] at hf
  | unknown m => simp [readErrorFatal] at hf

/-- Witness for C2 at a concrete state with two outstanding requests and a
child-termination read error. -/
theorem session_fatal_read_fails_all_witness :
    readErrorFatal (.childTerminated "Terminated with error status: 1") = true ∧
    ((step c2State (.incoming (.error (.childTerminated "Terminated with error status: 1")))).1.closed = true ∧
     (step c2State (.incoming (.error (.childTerminated "Terminated with error status: 1")))).1.stopped = true ∧
     (step c2State (.incoming (.error (.childTerminated "Terminated with error status: 1")))).1.pending = [] ∧
     (step c2State (.incoming (.error (.childTerminated "Terminated with error status: 1")))).2
       = notify_pending_requests c2State.pending
           (readErrorString (.childTerminated "Terminated with error status: 1")) ∧
     ((step c2State (.incoming (.error (.childTerminated "Terminated with error status: 1")))).2).length
       = c2State.pending.length ∧
     readErrorString .transportClosed = "Transport connection was closed" ∧
     (∀ m, readErrorString (.childTerminated m) = "Child process terminated: " ++ m) ∧
     (∀ c method params, rpc_call_entry true c method params = .error "Session is closed") ∧
     (∀ method params, send_notification_entry true method params
       = .error "Session is closed")) :=
  ⟨rfl, session_fatal_read_fails_all c2State
    (.childTerminated "Terminated with error status: 1") rfl⟩

/-- C3: an inbound response whose id matches no outstanding request leaves
the loop state — in particular the pending set and every other in-flight
request — untouched and resolves no waiter. -/
theorem session_unknown_id_discarded (s : LoopState) (r : JsonRpcResponse)
    (h : ∀ p ∈ s.pending, r.id ≠ some p.1) :
    step s (.incoming (.ok (.response r))) = (s, []) := by
  have hr : handle_response_message r s.pending = (s.pending, []) := by
    cases hid : r.id with
    | none => simp [handle_response_message, hid]
    | some i =>
      have hn : resolveById s.pending i = none :=
        resolveById_eq_none (fun p hp => by
          intro he
          exact h p hp (by rw [hid, he]))
      simp [handle_response_message, hid, hn]
  show ({ s with pending := (handle_response_message r s.pending).1 },
        (handle_response_message r s.pending).2) = (s, [])
  rw [hr]

/-- Witness for C3: a response with id 99 against a state whose only
outstanding request has id 1. -/
theorem session_unknown_id_discarded_witness :
    (∀ p ∈ c3State.pending, c3Resp.id ≠ some p.1) ∧
    step c3State (.incoming (.ok (.response c3Resp))) = (c3State, []) :=
  ⟨by decide, session_unknown_id_discarded c3State c3Resp (by decide)⟩

/-- C4: tools/list enumerates exactly the registered tools' metadata, and a
name absent from the registry neither appears among the listed tools nor is
callable — tools/call on it yields the ToolNotFound error without reaching
any handler. The hypothesis records the registry invariant every
RouterBuilder-built router satisfies: entries are keyed by their handler's
own name. -/
theorem router_tools_list_call_consistency (r : Router)
    (hinv : ∀ p ∈ r.tools, (p.2).name = p.1) :
    (∀ t, t ∈ Router.toolsList r ↔ ∃ p ∈ r.tools, mkTool p.2 = t) ∧
    (∀ req, Router.handle_tools_list r req =
      .ok { jsonrpc := "2.0", id := req.id,
            result := some (Json.obj
              [("tools", Json.arr ((Router.toolsList r).map Tool.toJson))]),
            error := none }) ∧
    (∀ name, lookupTool r.tools name = none →
      (∀ t ∈ Router.toolsList r, t.name ≠ name) ∧
      (∀ id args, Router.handle_tools_call r (toolsCallReq id name args)
        = .error (.toolNotFound name))) := by
  refine ⟨?_, ?_, ?_⟩
  · intro t
    simp [Router.toolsList, List.mem_map]
  · intro req
    rfl
  · intro name hlk
    refine ⟨?_, ?_⟩
    · intro t ht hne
      obtain ⟨p, hp, hpt⟩ := List.mem_map.mp ht
      have h1 : p.1 ≠ name := lookupTool_keys_of_none hlk p hp
      have h2 : t.name = p.1 := by rw [← hpt]; exact hinv p hp
      exact h1 (by rw [← h2, hne])
    · intro id args
      have h1 : Router.handle_tools_call r (toolsCallReq id name args)
          = (match lookupTool r.tools name with
             | none => .error (.toolNotFound name)
             | some tool =>
               .ok { createResponse id with
                     result := some (CallToolResult.toJson
                       (match tool.call args with
                        | .ok v => CallToolResult.mk [Content.text (Json.render v)] false
                        | .error err => CallToolResult.mk [Content.text err] true)) }) := rfl
      rw [h1, hlk]

/-- Witness for C4: a router with one registered tool, probed with the
absent name "missing". -/
theorem router_tools_list_call_consistency_witness :
    (∀ p ∈ c4Router.tools, (p.2).name = p.1) ∧
    ((∀ t, t ∈ Router.toolsList c4Router ↔ ∃ p ∈ c4Router.tools, mkTool p.2 = t) ∧
     (∀ req, Router.handle_tools_list c4Router req =
       .ok { jsonrpc := "2.0", id := req.id,
             result := some (Json.obj
               [("tools", Json.arr ((Router.toolsList c4Router).map Tool.toJson))]),
             error := none }) ∧
     (∀ name, lookupTool c4Router.tools name = none →
       (∀ t ∈ Router.toolsList c4Router, t.name ≠ name) ∧
       (∀ id args, Router.handle_tools_call c4Router (toolsCallReq id name args)
         = .error (.toolNotFound name)))) :=
  ⟨fun p hp => by
     have he : c4Router.tools = [("echo", echoTool)] := rfl
     rw [he] at hp
     rw [List.mem_singleton.mp hp]
     exact rfl,
   router_tools_list_call_consistency c4Router (fun p hp => by
     have he : c4Router.tools = [("echo", echoTool)] := rfl
     rw [he] at hp
     rw [List.mem_singleton.mp hp]
     exact rfl)⟩

/-- C5: a registered tool whose handler fails yields a successful response
(no JSON-RPC error) whose result payload carries isError true and a
non-empty content list holding the handler's error text. -/
theorem tool_error_reported_in_result (r : Router) (name : String) (h : ToolHandler)
    (args : Json) (emsg : String) (id : Option Nat)
    (hlk : lookupTool r.tools name = some h) (hcall : h.call args = .error emsg) :
    Router.handle_tools_call r (toolsCallReq id name args)
      = .ok { jsonrpc := "2.0", id := id,
              result := some (CallToolResult.toJson
                (CallToolResult.mk [Content.text emsg] true)),
              error := none } ∧
    (CallToolResult.toJson (CallToolResult.mk [Content.text emsg] true)).get "isError"
      = some (Json.bool true) ∧
    (CallToolResult.toJson (CallToolResult.mk [Content.text emsg] true)).get "content"
      = some (Json.arr [Content.toJson (Content.text emsg)]) ∧
    ([Content.toJson (Content.text emsg)] : List Json) ≠ [] := by
  refine ⟨?_, rfl, rfl, by simp⟩
  have h1 : Router.handle_tools_call r (toolsCallReq id name args)
      = (match lookupTool r.tools name with
         | none => .error (.toolNotFound name)
         | some tool =>
           .ok { createResponse id with
                 result := some (CallToolResult.toJson
                   (match tool.call args with
                    | .ok v => CallToolResult.mk [Content.text (Json.render v)] false
                    | .error err => CallToolResult.mk [Content.text err] true)) }) := rfl
  rw [h1, hlk]
  show Except.ok { createResponse id with
         result := some (CallToolResult.toJson
           (match h.call args with
            | .ok v => CallToolResult.mk [Content.text (Json.render v)] false
            | .error err => CallToolResult.mk [Content.text err] true)) } = _
  rw [hcall]
  rfl

/-- Witness for C5: the failing tool of c5Router called with null
arguments. -/
theorem tool_error_reported_in_result_witness :
    lookupTool c5Router.tools "fail" = some failTool ∧
    failTool.call Json.null = .error "tool exploded" ∧
    (Router.handle_tools_call c5Router (toolsCallReq (some 2) "fail" Json.null)
      = .ok { jsonrpc := "2.0", id := some 2,
              result := some (CallToolResult.toJson
                (CallToolResult.mk [Content.text "tool exploded"] true)),
              error := none } ∧
     (CallToolResult.toJson (CallToolResult.mk [Content.text "tool exploded"] true)).get "isError"
       = some (Json.bool true) ∧
     (CallToolResult.toJson (CallToolResult.mk [Content.text "tool exploded"] true)).get "content"
       = some (Json.arr [Content.toJson (Content.text "tool exploded")]) ∧
     ([Content.toJson (Content.text "tool exploded")] : List Json) ≠ []) :=
  ⟨rfl, rfl, tool_error_reported_in_result c5Router "fail" failTool Json.null
    "tool exploded" (some 2) rfl rfl⟩

/-- C6 counterexample: a serialization failure of an outgoing message is
not fatal. With one request outstanding, handle_write_error on a
SerializationError leaves the session open, the outstanding request
unresolved and still pending, and notifies nobody — contradicting the
claim that every channel-level failure, serialization included, closes the
Session and fails every outstanding call. -/
theorem write_serialization_error_not_fatal :
    (handle_write_error (.serializationError "key must be a string") false [(1, 7)]).1 = false ∧
    (handle_write_error (.serializationError "key must be a string") false [(1, 7)]).2.1
      = [(1, 7)] ∧
    (handle_write_error (.serializationError "key must be a string") false [(1, 7)]).2.2 = [] :=
  ⟨rfl, rfl, rfl⟩

/-- C6 amended: a write failure on the closed channel and the fatal read
errors (transport closed, child terminated) close the session and fail all
outstanding calls, each with a description identifying its cause, and the
three causes' descriptions are pairwise distinct; a serialization failure
is only logged — the session stays open, pending calls are untouched — and
non-fatal read errors likewise. -/
theorem channel_failure_taxonomy (closed : Bool) (pending : List (Nat × Nat)) (m : String) :
    handle_write_error .transportClosed closed pending
      = (true, [], notify_pending_requests pending "Transport closed") ∧
    handle_write_error (.serializationError m) closed pending = (closed, pending, []) ∧
    handle_read_error .transportClosed closed pending
      = (true, [], notify_pending_requests pending "Transport connection was closed", true) ∧
    handle_read_error (.childTerminated m) closed pending
      = (true, [],
         notify_pending_requests pending ("Child process terminated: " ++ m), true) ∧
    handle_read_error (.invalidMessage m) closed pending = (closed, pending, [], false) ∧
    ("Child process terminated: " ++ m) ≠ "Transport connection was closed" ∧
    ("Child process terminated: " ++ m) ≠ "Transport closed" ∧
    ("Transport connection was closed" : String) ≠ "Transport closed" := by
  refine ⟨rfl, rfl, rfl, rfl, rfl, ?_, ?_, by decide⟩
  · intro hcontra
    have e1 : strHead ("Child process terminated: " ++ m) = some 'C' := rfl
    rw [hcontra] at e1
    exact absurd e1 (by decide)
  · intro hcontra
    have e1 : strHead ("Child process terminated: " ++ m) = some 'C' := rfl
    rw [hcontra] at e1
    exact absurd e1 (by decide)

/-- C7 counterexample: after a completed shutdown a second shutdown() call
does not succeed — the background loop and with it the shutdown channel's
receiver are gone, so the signal send fails and shutdown returns the
"Failed to shutdown session" error, contradicting the claimed idempotent
success. -/
theorem second_shutdown_errors :
    (SessionHandle.shutdown initHandle []).2.1 = .ok () ∧
    (SessionHandle.shutdown ((SessionHandle.shutdown initHandle []).1) []).2.1
      = .error "Failed to shutdown session" :=
  ⟨rfl, rfl⟩

/-- C7 amended: the first shutdown() flips the closed flag, fails every
outstanding waiter with "Session shutdown" and stops the background loop;
a second call leaves the session in the same closed, stopped state but
returns a "Failed to shutdown session" error instead of succeeding. -/
theorem shutdown_flips_drains_stops (pending pending' : List (Nat × Nat)) :
    (SessionHandle.shutdown initHandle pending).1
      = { isClosed := true, loopAlive := false } ∧
    (SessionHandle.shutdown initHandle pending).2.1 = .ok () ∧
    (SessionHandle.shutdown initHandle pending).2.2
      = notify_pending_requests pending "Session shutdown" ∧
    SessionHandle.shutdown { isClosed := true, loopAlive := false } pending'
      = ({ isClosed := true, loopAlive := false },
         .error "Failed to shutdown session", []) :=
  ⟨rfl, rfl, rfl, rfl⟩

/-- C8 counterexample: a builder with nothing registered at all still
advertises the prompts capability after with_prompts — the descriptor is
hand-set, not derived from any registry (the Router has no prompt registry
whatsoever), contradicting the claim that every advertised capability
reflects a corresponding non-empty registry. -/
theorem prompts_capability_hand_set :
    (RouterBuilder.new.with_prompts true).build.capabilities.prompts
      = some { listChanged := some true } ∧
    (RouterBuilder.new.with_prompts true).build.tools = [] ∧
    (RouterBuilder.new.with_prompts true).build.capabilities.tools = none :=
  ⟨rfl, rfl, rfl⟩

/-- C8 amended: the tools capability is derived — present exactly when at
least one tool handler is registered, with listChanged false — while the
prompts and resources capabilities are exactly the descriptors hand-set on
the builder by with_prompts / with_resources, independent of any registry;
the initialize handler advertises these stored capabilities unchanged. -/
theorem capabilities_from_builder (b : RouterBuilder) :
    (b.build.capabilities.tools.isSome = true ↔ b.tools ≠ []) ∧
    b.build.capabilities.tools
      = (if b.tools.isEmpty then none else some { listChanged := some false }) ∧
    b.build.capabilities.prompts = b.prompts ∧
    b.build.capabilities.resources = b.resources ∧
    (Router.handle_init_result b.build).capabilities = b.build.capabilities ∧
    b.build.tools = b.tools := by
  refine ⟨?_, rfl, rfl, rfl, rfl, rfl⟩
  cases hb : b.tools with
  | nil => simp [RouterBuilder.build, hb]
  | cons p rest => simp [RouterBuilder.build, hb]

/-- C9: the client-side handshake sends the initialized notification
exactly when the initialize request got a successful response; a failed
request produces the request's error with no notification ever sent; a
failure to send the notification makes the whole handshake fail rather
than succeed softly; and when both steps succeed the handshake succeeds
with the request and the notification both on the wire, in that order. -/
theorem client_init_handshake_order (o : InitOutcomes) :
    ((ClientAction.sentNotification "notifications/initialized")
        ∈ (clientInitHandshake o).2
      ↔ ∃ r, o.requestOutcome = .ok r) ∧
    (∀ e, o.requestOutcome = .error e →
      clientInitHandshake o = (.error e, [.sentRequest "initialize"])) ∧
    (∀ r e, o.requestOutcome = .ok r → o.notifyOutcome = .error e →
      (clientInitHandshake o).1 = .error e) ∧
    (∀ r, o.requestOutcome = .ok r → o.notifyOutcome = .ok () →
      clientInitHandshake o
        = (.ok r, [.sentRequest "initialize",
                   .sentNotification "notifications/initialized"])) := by
  obtain ⟨ro, no⟩ := o
  cases ro <;> cases no <;> simp [clientInitHandshake]

/-- Witness for C9: a successful initialize response followed by a failed
notification send fails the whole handshake. -/
theorem client_init_handshake_order_witness :
    c9Outcomes.requestOutcome = .ok demoInitResult ∧
    c9Outcomes.notifyOutcome = .error (.service "connection reset") ∧
    (clientInitHandshake c9Outcomes).1 = .error (.service "connection reset") :=
  ⟨rfl, rfl,
    (client_init_handshake_order c9Outcomes).2.2.1 demoInitResult
      (.service "connection reset") rfl rfl⟩

/-- C10: the endpoint-event validation accepts an announced endpoint that
resolves to the same scheme and host but a different port — a different
web origin — and stores it for use as the POST target; only scheme or host
mismatches are rejected. Evaluating the embedded check at the failing
input: the rogue same-host different-port URL passes and is stored, while
a foreign host is rejected, so the code's "origin" comparison omits the
port, contrary to the claim that any cross-origin announcement fails the
connection. -/
theorem sse_endpoint_port_not_checked :
    urlOrigin sseRoguePort ≠ urlOrigin sseBase ∧
    endpoint_event_check sseBase sseRoguePort = .ok sseRoguePort ∧
    endpoint_event_check sseBase sseForeignHost = .error "Invalid endpoint origin" := by
  refine ⟨by decide, ?_, ?_⟩
  · simp [endpoint_event_check, sseBase, sseRoguePort]
  · simp [endpoint_event_check, sseBase, sseForeignHost]
